import Mathlib

/-!
Verification of the metric-subscription / transport-routing core of the
Neurosity Notion client SDK.  Definitions are shallow embeddings of the
TypeScript source in src/src/api/index.ts and src/src/utils/errors.ts;
components of the repository that are not present under src/ (the firebase
subscription multiplexer, utils/oauth.ts, utils/metrics.ts, the timesync
module) are modelled from the specification, as marked in their doc
comments.
-/

namespace NotionSDK

/-- SDK construction options (src/src/api/index.ts `defaultOptions` and the
fields consumed by `ApiClient`): `timesync`, `autoSelectDevice`, the
on-device socket URL and the device id. -/
structure NotionOptions where
  timesync : Bool
  autoSelectDevice : Bool
  onDeviceSocketUrl : Option String
  deviceId : Option String
deriving DecidableEq, Repr

/-- The `defaultOptions` object of src/src/api/index.ts (lines 177-187):
timesync off, autoSelectDevice on, no socket URL. -/
def defaultOptions : NotionOptions :=
  { timesync := false
    autoSelectDevice := true
    onDeviceSocketUrl := none
    deviceId := none }

/-- A ScopeError names the missing capability scope
(spec: a distinguishable error carrying the required scope name). -/
structure ScopeError where
  missingScope : String
deriving DecidableEq, Repr

/-- Error kinds surfaced by the SDK (src/src/utils/errors.ts and spec
section 7): device-selection, scope, state, and marker-label errors. -/
inductive NotionError where
  | scope (e : ScopeError)
  | deviceSelection
  | stateError (msg : String)
  | labelRequired
deriving DecidableEq, Repr

/-- Modelled from the spec: the metric keys of the external
`@neurosity/ipk` package, used by `isNotionMetric` in
src/src/api/index.ts line 12-13.  A fixed, closed allow-list of the
metric names the device firmware can serve directly; it does not depend
on options or session state. -/
def notionMetricNames : List String :=
  ["awareness", "brainwaves", "kinesis", "predictions", "signalQuality", "status"]

/-- `isNotionMetric` (src/src/api/index.ts lines 12-13): membership of the
metric name in the fixed allow-list. -/
def isNotionMetric (metric : String) : Bool :=
  notionMetricNames.contains metric

/-- `shouldRerouteToDevice` (src/src/api/index.ts lines 74-75): the metric
may be carried by the on-device socket only when the socket transport
exists and the metric is allow-listed. -/
def shouldRerouteToDevice (hasOnDeviceSocket : Bool) (metric : String) : Bool :=
  hasOnDeviceSocket && isNotionMetric metric

/-- The two transport kinds of the router (spec section 4.3). -/
inductive TransportKind where
  | cloud
  | localSocket
deriving DecidableEq, Repr

/-- Context the transport router reads from session state: the local-mode
flag and the socket URL advertised by the current device. -/
structure RouterContext where
  localModeEnabled : Bool
  deviceSocketUrl : Option String
deriving DecidableEq, Repr

/-- Modelled from the spec: the routing decision of `getMetric`
(src/utils/metrics.ts, not under src/).  The local-mode conjunct comes
from spec section 4.3; the socket-availability and allow-list conjuncts
are the in-source `shouldRerouteToDevice` check. -/
def route (metric : String) (ctx : RouterContext) : TransportKind :=
  if ctx.localModeEnabled && shouldRerouteToDevice ctx.deviceSocketUrl.isSome metric then
    TransportKind.localSocket
  else
    TransportKind.cloud

/-- Modelled from the spec: the static mapping of utils/oauth.ts (not under
src/) from a guarded function name to the minimal scope it requires
(spec section 4.2: "Maintains a static mapping from operation name ... to
the minimal scope required"; scope names follow the spec's examples such
as "read:brainwaves"). -/
def functionScopeMap : List (String × String) :=
  [("brainwaves", "read:brainwaves"),
   ("status", "read:devices-status"),
   ("signalQuality", "read:signal-quality"),
   ("getInfo", "read:devices-info"),
   ("selectDevice", "read:devices-info"),
   ("calm", "read:calm"),
   ("focus", "read:focus"),
   ("accelerometer", "read:accelerometer"),
   ("kinesis", "read:kinesis"),
   ("predictions", "read:predictions")]

/-- Device actions dispatched through the cloud transport
(the `{ command, action, message }` objects built in
src/src/api/index.ts; the message fields the core writes are the marker
or training label, the training metric and the outgoing timestamp). -/
structure Action where
  command : String
  action : String
  messageLabel : Option String
  messageMetric : Option String
  messageTimestamp : Option Int
deriving DecidableEq, Repr

/-- Modelled from the spec: the static mapping of utils/oauth.ts (not
under src/) from a dispatched-action (command, action) pair to the
minimal scope it requires (spec section 4.2). -/
def actionScopeMap : List ((String × String) × String) :=
  [(("marker", "add"), "write:markers"),
   (("haptics", "queue"), "write:haptics"),
   (("training", "record"), "write:training"),
   (("training", "stop"), "write:training"),
   (("training", "stopAll"), "write:training")]

/-- The scope a guarded function name requires, if the guard knows it. -/
def requiredScopeForFunction (fname : String) : Option String :=
  functionScopeMap.lookup fname

/-- The scope a dispatched action requires, if the guard knows it. -/
def requiredScopeForAction (a : Action) : Option String :=
  actionScopeMap.lookup (a.command, a.action)

/-- Modelled from the spec: `validateOAuthScopeForFunctionName` of
utils/oauth.ts (not under src/).  A pure, synchronous check: it denies
(returns the ScopeError naming the missing scope) exactly when the scope
the function requires is absent from the claims. -/
def validateOAuthScopeForFunctionName (claims : List String) (fname : String) :
    Option ScopeError :=
  match requiredScopeForFunction fname with
  | none => none
  | some scope => if claims.contains scope then none else some ⟨scope⟩

/-- Modelled from the spec: `validateOAuthScopeForAction` of
utils/oauth.ts (not under src/), the action-pair analogue. -/
def validateOAuthScopeForAction (claims : List String) (a : Action) :
    Option ScopeError :=
  match requiredScopeForAction a with
  | none => none
  | some scope => if claims.contains scope then none else some ⟨scope⟩

/-- A logical metric subscription request
(src/types/subscriptions as used by src/src/api/index.ts): metric name,
ordered label filters, atomic flag. -/
structure MetricSubscriptionRequest where
  metric : String
  labels : List String
  atomic : Bool
deriving DecidableEq, Repr

/-- Calls that reach a transport (the firebase / on-device-socket
collaborators): dispatching an action, creating a metric subscription,
or the device-selection query. -/
inductive TransportCall where
  | dispatch (a : Action)
  | subscribeMetric (r : MetricSubscriptionRequest)
  | selectDeviceQuery
deriving DecidableEq, Repr

/-- How a public operation finishes: a synchronous exception escaping the
call (`throw` in a non-async method), a failure by value (rejected
promise or errored stream), or a resolved value. -/
inductive Outcome (α : Type) where
  | thrown (e : NotionError)
  | rejected (e : NotionError)
  | resolved (v : α)
deriving DecidableEq, Repr

/-- `ApiClient.timestamp` (src/src/api/index.ts lines 112-114): the
synchronized timesync clock when options.timesync is on, otherwise the
unsynchronized local clock `Date.now()`. -/
def ApiClient.timestamp (options : NotionOptions) (timesyncTime localNow : Int) : Int :=
  if options.timesync then timesyncTime else localNow

/-- The session context an operation of the `Notion` class reads: the
granted scope claims, whether `api.didSelectDevice()` holds, the frozen
options, and the two clock readings `ApiClient.timestamp` chooses
between. -/
structure ApiContext where
  claims : List String
  deviceSelected : Bool
  options : NotionOptions
  timesyncTime : Int
  localNow : Int
deriving DecidableEq, Repr

/-- The timestamp `this.api.timestamp` yields in a context. -/
def ApiContext.timestamp (ctx : ApiContext) : Int :=
  ApiClient.timestamp ctx.options ctx.timesyncTime ctx.localNow

/-- `Notion.dispatchAction` (src/src/api/index.ts lines 618-633): reject
without a device, reject on a guard denial, otherwise dispatch through
the transport.  Returns the transport calls performed with the
outcome. -/
def dispatchAction (ctx : ApiContext) (a : Action) :
    List TransportCall × Outcome Action :=
  if ctx.deviceSelected = false then
    ([], Outcome.rejected NotionError.deviceSelection)
  else
    match validateOAuthScopeForAction ctx.claims a with
    | some e => ([], Outcome.rejected (NotionError.scope e))
    | none => ([TransportCall.dispatch a], Outcome.resolved a)

/-- `Notion.brainwaves` (src/src/api/index.ts lines 839-858): guard
first (a denial errors the stream with the ScopeError before any
transport call), then subscribe to the "brainwaves" metric with the
requested labels, atomic=false. -/
def brainwaves (ctx : ApiContext) (label : String) (otherLabels : List String) :
    List TransportCall × Outcome Unit :=
  match validateOAuthScopeForFunctionName ctx.claims "brainwaves" with
  | some e => ([], Outcome.rejected (NotionError.scope e))
  | none =>
    ([TransportCall.subscribeMetric
        ⟨"brainwaves", if label.isEmpty then [] else label :: otherLabels, false⟩],
     Outcome.resolved ())

/-- `Notion.calm` (src/src/api/index.ts lines 876-889): guard, then
subscribe to metric "awareness" with labels ["calm"], atomic=false. -/
def calm (ctx : ApiContext) : List TransportCall × Outcome Unit :=
  match validateOAuthScopeForFunctionName ctx.claims "calm" with
  | some e => ([], Outcome.rejected (NotionError.scope e))
  | none =>
    ([TransportCall.subscribeMetric ⟨"awareness", ["calm"], false⟩],
     Outcome.resolved ())

/-- `Notion.focus` (src/src/api/index.ts lines 967-980): guard, then
subscribe to metric "awareness" with labels ["focus"], atomic=false. -/
def focus (ctx : ApiContext) : List TransportCall × Outcome Unit :=
  match validateOAuthScopeForFunctionName ctx.claims "focus" with
  | some e => ([], Outcome.rejected (NotionError.scope e))
  | none =>
    ([TransportCall.subscribeMetric ⟨"awareness", ["focus"], false⟩],
     Outcome.resolved ())

/-- `Notion.selectDevice` (src/src/api/index.ts lines 436-450), the
guarded device-management call: a guard denial rejects before the
device query is issued. -/
def selectDevice (ctx : ApiContext) : List TransportCall × Outcome Unit :=
  match validateOAuthScopeForFunctionName ctx.claims "selectDevice" with
  | some e => ([], Outcome.rejected (NotionError.scope e))
  | none => ([TransportCall.selectDeviceQuery], Outcome.resolved ())

/-- `Notion.addMarker` (src/src/api/index.ts lines 648-667): `throw`
(synchronous, the method is not async) without a device or with a falsy
label; otherwise dispatch a marker action stamped with
`this.api.timestamp`. -/
def addMarker (ctx : ApiContext) (label : String) :
    List TransportCall × Outcome Action :=
  if ctx.deviceSelected = false then
    ([], Outcome.thrown NotionError.deviceSelection)
  else if label.isEmpty then
    ([], Outcome.thrown NotionError.labelRequired)
  else
    dispatchAction ctx
      { command := "marker"
        action := "add"
        messageLabel := some label
        messageMetric := none
        messageTimestamp := some ctx.timestamp }

/-- `Notion.training.record` (src/src/api/index.ts lines 1111-1132):
`throw` (synchronous) without a device; otherwise dispatch a training
record action directly through `api.actions.dispatch`, stamped with
`this.api.timestamp`. -/
def trainingRecord (ctx : ApiContext) (metric label : String) :
    List TransportCall × Outcome Unit :=
  if ctx.deviceSelected = false then
    ([], Outcome.thrown NotionError.deviceSelection)
  else
    ([TransportCall.dispatch
        { command := "training"
          action := "record"
          messageLabel := some label
          messageMetric := some metric
          messageTimestamp := some ctx.timestamp }],
     Outcome.resolved ())

/-- `Notion.training.stop` (src/src/api/index.ts lines 1137-1149):
`throw` (synchronous) without a device; otherwise dispatch a training
stop action for the metric/label pair directly through
`api.actions.dispatch`. -/
def trainingStop (ctx : ApiContext) (metric label : String) :
    List TransportCall × Outcome Unit :=
  if ctx.deviceSelected = false then
    ([], Outcome.thrown NotionError.deviceSelection)
  else
    ([TransportCall.dispatch
        { command := "training"
          action := "stop"
          messageLabel := some label
          messageMetric := some metric
          messageTimestamp := none }],
     Outcome.resolved ())

/-- `Notion.training.stopAll` (src/src/api/index.ts lines 1154-1164):
`throw` (synchronous) without a device; otherwise dispatch a training
stopAll action with an empty message directly through
`api.actions.dispatch`. -/
def trainingStopAll (ctx : ApiContext) : List TransportCall × Outcome Unit :=
  if ctx.deviceSelected = false then
    ([], Outcome.thrown NotionError.deviceSelection)
  else
    ([TransportCall.dispatch
        { command := "training"
          action := "stopAll"
          messageLabel := none
          messageMetric := none
          messageTimestamp := none }],
     Outcome.resolved ())

/-- JavaScript falsiness of an optional socket-URL string: absent, or the
empty string.  This is the condition both truthiness checks on a socket
URL in src/src/api/index.ts test: `if (options.onDeviceSocketUrl)` in
the ApiClient constructor (line 28) and `if (!socketUrl)` on the value
`onceNamespace("context/socketUrl")` resolves to in enableLocalMode
(line 572). -/
def isFalsySocketUrl : Option String → Bool
  | none => true
  | some s => s.isEmpty

/-- The message of the StateError `enableLocalMode(true)` rejects with
when the device advertised no socket URL (src/src/api/index.ts line
573). -/
def localModeUnsupportedMsg : String :=
  "Neurosity SDK: Your device OS does not support localMode. Try updating to the latest OS."

/-- The mutable instance state of a `Notion` object that the embedded
operations read or write: the frozen options, whether the `ApiClient`
constructor created the on-device socket transport, the current value of
`_localModeSubject` with every value emitted on it, and the selected
device id. -/
structure NotionState where
  options : NotionOptions
  hasOnDeviceSocket : Bool
  localMode : Bool
  localModeEmissions : List Bool
  selectedDevice : Option String
deriving DecidableEq, Repr

/-- The `Notion` and `ApiClient` constructors (src/src/api/index.ts lines
241-248 and 24-34): the options object is frozen and stored; the
on-device socket transport is created exactly when the JS-truthy check
`if (options.onDeviceSocketUrl)` (line 28) passes, that is, when the
option holds a non-empty string; `_localModeSubject` starts at false; no
device is selected. -/
def Notion.construct (options : NotionOptions) : NotionState :=
  { options := options
    hasOnDeviceSocket := !isFalsySocketUrl options.onDeviceSocketUrl
    localMode := false
    localModeEmissions := []
    selectedDevice := none }

/-- `Notion.enableLocalMode` (src/src/api/index.ts lines 555-587).
`socketUrlValue` is what `onceNamespace("context/socketUrl")` resolved
to.  Disabling emits false and resolves false unconditionally; enabling
first checks the socket URL and rejects with the StateError, mutating
nothing, when it is falsy. -/
def enableLocalMode (st : NotionState) (shouldEnable : Bool)
    (socketUrlValue : Option String) : NotionState × Outcome Bool :=
  if shouldEnable = false then
    ({ st with localMode := false,
               localModeEmissions := st.localModeEmissions ++ [false] },
     Outcome.resolved false)
  else if isFalsySocketUrl socketUrlValue then
    (st, Outcome.rejected (NotionError.stateError localModeUnsupportedMsg))
  else
    ({ st with localMode := true,
               localModeEmissions := st.localModeEmissions ++ [true] },
     Outcome.resolved true)

/-- The warning text `Notion.getTimesyncOffset` logs (src/src/api/index.ts
lines 1230-1233). -/
def timesyncOffsetWarning : String :=
  "getTimesyncOffset() requires options.timesync to be true."

/-- `Notion.getTimesyncOffset` (src/src/api/index.ts lines 1228-1236):
warns exactly when options.timesync is off, and returns the api offset
when on, the degraded value 0 when off.  The first component is the list
of warnings the call produces. -/
def getTimesyncOffset (options : NotionOptions) (apiOffset : Int) :
    List String × Int :=
  ((if options.timesync then [] else [timesyncOffsetWarning]),
   if options.timesync then apiOffset else 0)

/-- The state-changing operations of a constructed `Notion` instance, as
far as they touch the fields of `NotionState`: toggling local mode
(src/src/api/index.ts lines 555-587), device selection resolving
(lines 436-450), logout clearing the session, and disconnect (lines
596-598, which closes transports but reassigns no field). -/
inductive NotionOp where
  | enableLocal (shouldEnable : Bool) (socketUrlValue : Option String)
  | selectDev (result : Option String)
  | logout
  | disconnect
deriving DecidableEq, Repr

/-- The state transition each operation performs.  No operation other
than the constructor assigns `this.options` (only line 242) or
`this.onDeviceSocket` (only line 29), so neither field changes. -/
def notionStep (st : NotionState) : NotionOp → NotionState
  | NotionOp.enableLocal b url => (enableLocalMode st b url).1
  | NotionOp.selectDev r => { st with selectedDevice := r }
  | NotionOp.logout => { st with selectedDevice := none }
  | NotionOp.disconnect => st

/-- Modelled from the spec: a probe sample of the Timesync module
(src/timesync, not under src/).  Each probe records client-send-time,
device-echoed-time and client-receive-time (spec section 4.1). -/
structure TimesyncSample where
  sendTime : Int
  receiveTime : Int
  deviceTime : Int
deriving DecidableEq, Repr

/-- Modelled from the spec: a sample's offset estimate,
`deviceTime - (sendTime + receiveTime) / 2` (spec section 4.1). -/
def sampleOffset (s : TimesyncSample) : Int :=
  s.deviceTime - (s.sendTime + s.receiveTime) / 2

/-- Modelled from the spec: a sample's observed round-trip latency. -/
def sampleLatency (s : TimesyncSample) : Int :=
  s.receiveTime - s.sendTime

/-- Modelled from the spec: the sample the Timesync module keeps from the
sliding window, the one with smallest observed round-trip latency
(spec section 4.1). -/
def bestSample : List TimesyncSample → Option TimesyncSample
  | [] => none
  | s :: rest =>
    match bestSample rest with
    | none => some s
    | some t => if sampleLatency s ≤ sampleLatency t then some s else some t

/-- Modelled from the spec: the offset estimate of a window of probe
samples, the offset of the kept minimum-latency sample (0 before any
probe completed). -/
def windowOffset (window : List TimesyncSample) : Int :=
  match bestSample window with
  | none => 0
  | some s => sampleOffset s

/-- Modelled from the spec: Timesync `now()` after enabling,
`localTime + offsetMillis`. -/
def timesyncNow (localTime : Int) (window : List TimesyncSample) : Int :=
  localTime + windowOffset window

/-- A physical transport subscription as the Subscription Multiplexer
owns it (spec section 3): its key, its reference count, and the ids of
the logical listeners attached to it. -/
structure PhysicalSubscription where
  key : MetricSubscriptionRequest × TransportKind
  listenerCount : Nat
  listeners : List Nat
deriving DecidableEq, Repr

/-- Modelled from the spec: the state of the Subscription Multiplexer of
the firebase client (`subscribeToMetric` / `unsubscribFromMetric`, not
under src/): the physical-subscription table and a counter of listener
ids. -/
structure MuxState where
  subs : List PhysicalSubscription
  nextListenerId : Nat
deriving DecidableEq, Repr

/-- The multiplexer before any subscription. -/
def MuxState.initial : MuxState := ⟨[], 0⟩

/-- Modelled from the spec: the physical-subscription key of a request,
(metric, normalized sorted label set, atomic flag, routed transport
kind) (spec section 4.4). -/
def normalizeKey (r : MetricSubscriptionRequest) (t : TransportKind) :
    MetricSubscriptionRequest × TransportKind :=
  (⟨r.metric, (r.labels.dedup).insertionSort (fun a b => a ≤ b), r.atomic⟩, t)

/-- Whether the table already holds a physical subscription with key `k`. -/
def hasKey (subs : List PhysicalSubscription) (k : MetricSubscriptionRequest × TransportKind) : Bool :=
  subs.any (fun s => decide (s.key = k))

/-- Attach listener `lid` to the existing physical subscription with key
`k`: increment its listenerCount and record the listener. -/
def attachListener (subs : List PhysicalSubscription)
    (k : MetricSubscriptionRequest × TransportKind) (lid : Nat) :
    List PhysicalSubscription :=
  subs.map (fun s =>
    if s.key = k then
      { s with listenerCount := s.listenerCount + 1, listeners := lid :: s.listeners }
    else s)

/-- Modelled from the spec: `subscribe(request)` of the Subscription
Multiplexer (spec section 4.4).  Compute the key; if a physical
subscription with that key exists, increment its listenerCount and
attach a new logical listener; otherwise create one through the routed
transport with listenerCount 1.  Returns the handle (key, listener id). -/
def muxSubscribe (st : MuxState) (r : MetricSubscriptionRequest) (t : TransportKind) :
    MuxState × (MetricSubscriptionRequest × TransportKind) × Nat :=
  let k := normalizeKey r t
  let lid := st.nextListenerId
  if hasKey st.subs k then
    (⟨attachListener st.subs k lid, lid + 1⟩, k, lid)
  else
    (⟨⟨k, 1, [lid]⟩ :: st.subs, lid + 1⟩, k, lid)

/-- Detach listener `lid` from a subscription when the handle matches a
currently-attached listener: decrement listenerCount exactly once and
remove the listener. -/
def detachListener (s : PhysicalSubscription)
    (k : MetricSubscriptionRequest × TransportKind) (lid : Nat) :
    PhysicalSubscription :=
  if s.key = k ∧ lid ∈ s.listeners then
    { s with listenerCount := s.listenerCount - 1, listeners := s.listeners.erase lid }
  else s

/-- Modelled from the spec: `unsubscribe(handle)` of the Subscription
Multiplexer (spec section 4.4).  Detach the listener, decrement
listenerCount exactly once per logical unsubscribe, and tear the
physical subscription down when its count reaches 0. -/
def muxUnsubscribe (st : MuxState)
    (k : MetricSubscriptionRequest × TransportKind) (lid : Nat) : MuxState :=
  ⟨(st.subs.map (fun s => detachListener s k lid)).filter
     (fun s => decide (s.listenerCount ≠ 0)),
   st.nextListenerId⟩

/-- A logical multiplexer operation: a subscribe call for a request over
a routed transport, or an unsubscribe of a handle. -/
inductive MuxOp where
  | sub (r : MetricSubscriptionRequest) (t : TransportKind)
  | unsub (k : MetricSubscriptionRequest × TransportKind) (lid : Nat)
deriving DecidableEq, Repr

/-- One multiplexer step. -/
def muxStep (st : MuxState) : MuxOp → MuxState
  | MuxOp.sub r t => (muxSubscribe st r t).1
  | MuxOp.unsub k lid => muxUnsubscribe st k lid

/-- The multiplexer state after a sequence of logical operations from the
initial state. -/
def muxRun (ops : List MuxOp) : MuxState :=
  ops.foldl muxStep MuxState.initial

/-- The physical-subscription table holds at most one entry per key. -/
def MuxKeysNodup (st : MuxState) : Prop :=
  (st.subs.map (fun s => s.key)).Nodup

/-- Every physical subscription's listenerCount equals the number of
logical listeners currently attached to it. -/
def MuxCountsOk (st : MuxState) : Prop :=
  ∀ s ∈ st.subs, s.listenerCount = s.listeners.length

/-- The multiplexer invariant of spec section 3. -/
def MuxInv (st : MuxState) : Prop :=
  MuxKeysNodup st ∧ MuxCountsOk st

theorem keys_attachListener (subs : List PhysicalSubscription)
    (k : MetricSubscriptionRequest × TransportKind) (lid : Nat) :
    (attachListener subs k lid).map (fun s => s.key) = subs.map (fun s => s.key) := by
  induction subs with
  | nil => rfl
  | cons s rest ih =>
    simp only [attachListener, List.map_cons] at *
    by_cases h : s.key = k <;> simp [h, ih]

theorem key_detachListener (s : PhysicalSubscription)
    (k : MetricSubscriptionRequest × TransportKind) (lid : Nat) :
    (detachListener s k lid).key = s.key := by
  unfold detachListener
  split <;> rfl

theorem keys_map_detach (subs : List PhysicalSubscription)
    (k : MetricSubscriptionRequest × TransportKind) (lid : Nat) :
    (subs.map (fun s => detachListener s k lid)).map (fun s => s.key)
      = subs.map (fun s => s.key) := by
  rw [List.map_map]
  exact List.map_congr_left (fun s _ => key_detachListener s k lid)

theorem countsOk_attach (subs : List PhysicalSubscription)
    (k : MetricSubscriptionRequest × TransportKind) (lid : Nat)
    (h : ∀ s ∈ subs, s.listenerCount = s.listeners.length) :
    ∀ s ∈ attachListener subs k lid, s.listenerCount = s.listeners.length := by
  intro s hs
  unfold attachListener at hs
  rcases List.mem_map.mp hs with ⟨t, ht, rfl⟩
  by_cases hk : t.key = k <;> simp [hk, h t ht]

theorem countsOk_detach (s : PhysicalSubscription)
    (k : MetricSubscriptionRequest × TransportKind) (lid : Nat)
    (h : s.listenerCount = s.listeners.length) :
    (detachListener s k lid).listenerCount = (detachListener s k lid).listeners.length := by
  unfold detachListener
  split
  next hc =>
    simp only [h, List.length_erase_of_mem hc.2]
  next => exact h

theorem muxInv_subscribe (st : MuxState) (r : MetricSubscriptionRequest)
    (t : TransportKind) (h : MuxInv st) : MuxInv (muxSubscribe st r t).1 := by
  obtain ⟨hkeys, hcounts⟩ := h
  unfold muxSubscribe
  by_cases hk : hasKey st.subs (normalizeKey r t) = true
  · simp only [hk, if_true]
    refine ⟨?_, ?_⟩
    · unfold MuxKeysNodup
      simpa [keys_attachListener] using hkeys
    · exact countsOk_attach st.subs (normalizeKey r t) st.nextListenerId hcounts
  · rw [Bool.not_eq_true] at hk
    simp only [hk, Bool.false_eq_true, if_false]
    refine ⟨?_, ?_⟩
    · unfold MuxKeysNodup
      simp only [List.map_cons, List.nodup_cons]
      refine ⟨?_, hkeys⟩
      intro hmem
      rcases List.mem_map.mp hmem with ⟨s, hs, hkey⟩
      have hkk : hasKey st.subs (normalizeKey r t) = true := by
        unfold hasKey
        exact List.any_eq_true.mpr ⟨s, hs, by simp [hkey]⟩
      rw [hkk] at hk
      cases hk
    · intro s hs
      rcases List.mem_cons.mp hs with rfl | hmem
      · rfl
      · exact hcounts s hmem

theorem muxInv_unsubscribe (st : MuxState)
    (k : MetricSubscriptionRequest × TransportKind) (lid : Nat)
    (h : MuxInv st) : MuxInv (muxUnsubscribe st k lid) := by
  obtain ⟨hkeys, hcounts⟩ := h
  unfold muxUnsubscribe
  refine ⟨?_, ?_⟩
  · unfold MuxKeysNodup
    have hsub :
        (((st.subs.map (fun s => detachListener s k lid)).filter
            (fun s => decide (s.listenerCount ≠ 0))).map (fun s => s.key)).Sublist
          (((st.subs.map (fun s => detachListener s k lid))).map (fun s => s.key)) :=
      List.Sublist.map _ (List.filter_sublist _)
    rw [keys_map_detach] at hsub
    exact List.Nodup.sublist hsub hkeys
  · intro s hs
    have hs' := List.mem_of_mem_filter hs
    rcases List.mem_map.mp hs' with ⟨u, hu, rfl⟩
    exact countsOk_detach u k lid (hcounts u hu)

theorem muxInv_step (st : MuxState) (op : MuxOp) (h : MuxInv st) :
    MuxInv (muxStep st op) := by
  cases op with
  | sub r t => exact muxInv_subscribe st r t h
  | unsub k lid => exact muxInv_unsubscribe st k lid h

theorem muxInv_foldl (ops : List MuxOp) :
    ∀ st : MuxState, MuxInv st → MuxInv (ops.foldl muxStep st) := by
  induction ops with
  | nil => intro st h; exact h
  | cons op rest ih =>
    intro st h
    exact ih (muxStep st op) (muxInv_step st op h)

theorem muxInv_initial : MuxInv MuxState.initial := by
  constructor
  · exact List.nodup_nil
  · intro s hs; cases hs

theorem muxInv_run (ops : List MuxOp) : MuxInv (muxRun ops) :=
  muxInv_foldl ops MuxState.initial muxInv_initial

theorem filter_key_len_le_one (subs : List PhysicalSubscription)
    (h : (subs.map (fun s => s.key)).Nodup)
    (k : MetricSubscriptionRequest × TransportKind) :
    (subs.filter (fun s => decide (s.key = k))).length ≤ 1 := by
  induction subs with
  | nil => simp
  | cons s rest ih =>
    simp only [List.map_cons, List.nodup_cons] at h
    obtain ⟨hnot, hrest⟩ := h
    by_cases hk : s.key = k
    · have hempty : rest.filter (fun s => decide (s.key = k)) = [] := by
        rw [List.filter_eq_nil_iff]
        intro t ht hdec
        have : t.key = k := of_decide_eq_true hdec
        exact hnot (List.mem_map.mpr ⟨t, ht, by rw [this, hk]⟩)
      simp [List.filter_cons, hk, hempty]
    · simpa [List.filter_cons, hk] using ih hrest

theorem bestSample_mem_min (w : List TimesyncSample) (s : TimesyncSample)
    (h : bestSample w = some s) :
    s ∈ w ∧ ∀ t ∈ w, sampleLatency s ≤ sampleLatency t := by
  induction w generalizing s with
  | nil => cases h
  | cons a rest ih =>
    unfold bestSample at h
    cases hr : bestSample rest with
    | none =>
      rw [hr] at h
      cases h
      have hrest : rest = [] := by
        cases rest with
        | nil => rfl
        | cons b tl =>
          unfold bestSample at hr
          cases hb : bestSample tl <;> simp [hb] at hr
          split at hr <;> cases hr
      subst hrest
      exact ⟨List.mem_singleton.mpr rfl, by intro t ht; rw [List.mem_singleton.mp ht]⟩
    | some b =>
      rw [hr] at h
      dsimp only at h
      obtain ⟨hbmem, hbmin⟩ := ih b hr
      by_cases hle : sampleLatency a ≤ sampleLatency b
      · rw [if_pos hle] at h
        cases h
        refine ⟨List.mem_cons_self a rest, ?_⟩
        intro t ht
        rcases List.mem_cons.mp ht with rfl | htr
        · exact le_refl _
        · exact le_trans hle (hbmin t htr)
      · rw [if_neg hle] at h
        cases h
        refine ⟨List.mem_cons_of_mem a hbmem, ?_⟩
        intro t ht
        rcases List.mem_cons.mp ht with rfl | htr
        · exact le_of_lt (lt_of_not_le hle)
        · exact hbmin t htr

/-- C1: for every sequence of logical subscribe/unsubscribe calls, the
physical-subscription table holds at most one PhysicalSubscription per
normalized key (same metric, label set, atomic flag, routed transport:
requests with equal keys share one physical subscription, and a
subscribe on an existing key creates no new one), and every
PhysicalSubscription's listenerCount equals the number of
currently-attached logical listeners. -/
theorem mux_shares_physical_subscription_and_counts_listeners (ops : List MuxOp) :
    (∀ k : MetricSubscriptionRequest × TransportKind,
       ((muxRun ops).subs.filter (fun s => decide (s.key = k))).length ≤ 1)
    ∧ (∀ s ∈ (muxRun ops).subs, s.listenerCount = s.listeners.length)
    ∧ (∀ (r : MetricSubscriptionRequest) (t : TransportKind),
         hasKey (muxRun ops).subs (normalizeKey r t) = true →
           ((muxStep (muxRun ops) (MuxOp.sub r t)).subs.map (fun s => s.key))
             = ((muxRun ops).subs.map (fun s => s.key))) := by
  obtain ⟨hkeys, hcounts⟩ := muxInv_run ops
  refine ⟨fun k => filter_key_len_le_one _ hkeys k, hcounts, ?_⟩
  intro r t hk
  simp only [muxStep, muxSubscribe, hk, if_true]
  exact keys_attachListener _ _ _

/-- C2: the transport router chooses the local socket exactly when local
mode is enabled, the current device advertised a socket URL, and the
metric is on the fixed allow-list; in every other case, including every
metric while local mode is disabled, it chooses the cloud transport. -/
theorem router_local_socket_iff_allowed (metric : String) (ctx : RouterContext) :
    (route metric ctx = TransportKind.localSocket ↔
       (ctx.localModeEnabled = true ∧ ctx.deviceSocketUrl.isSome = true ∧
        isNotionMetric metric = true))
    ∧ (route metric ctx = TransportKind.cloud ↔
       ¬(ctx.localModeEnabled = true ∧ ctx.deviceSocketUrl.isSome = true ∧
         isNotionMetric metric = true)) := by
  unfold route shouldRerouteToDevice
  constructor
  · constructor
    · intro h
      by_cases hc :
          (ctx.localModeEnabled && (ctx.deviceSocketUrl.isSome && isNotionMetric metric)) = true
      · simpa [Bool.and_eq_true] using hc
      · rw [if_neg hc] at h
        cases h
    · intro ⟨h1, h2, h3⟩
      rw [if_pos (by simp [h1, h2, h3])]
  · constructor
    · intro h hcontra
      obtain ⟨h1, h2, h3⟩ := hcontra
      rw [if_pos (by simp [h1, h2, h3])] at h
      cases h
    · intro h
      rw [if_neg ?_]
      intro hc
      exact h (by simpa [Bool.and_eq_true] using hc)

/-- C3: for metric subscription (brainwaves), action dispatch and the
guarded device-management call, the Capability Guard denies exactly when
the required scope is absent from the claims, the denial carries a
ScopeError naming the missing scope, and a denied operation performs no
transport call; when the scope is present the operation reaches the
transport. -/
theorem guard_denies_iff_scope_absent (ctx : ApiContext) (lbl : String)
    (otherLabels : List String) (a : Action) (ascope : String)
    (hds : ctx.deviceSelected = true)
    (ha : requiredScopeForAction a = some ascope) :
    ((brainwaves ctx lbl otherLabels).2 =
        Outcome.rejected (NotionError.scope ⟨"read:brainwaves"⟩) ↔
      "read:brainwaves" ∉ ctx.claims)
    ∧ ("read:brainwaves" ∉ ctx.claims →
        (brainwaves ctx lbl otherLabels).1 = [])
    ∧ ("read:brainwaves" ∈ ctx.claims →
        (brainwaves ctx lbl otherLabels).2 = Outcome.resolved () ∧
        (brainwaves ctx lbl otherLabels).1 ≠ [])
    ∧ ((dispatchAction ctx a).2 = Outcome.rejected (NotionError.scope ⟨ascope⟩) ↔
        ascope ∉ ctx.claims)
    ∧ (ascope ∉ ctx.claims → (dispatchAction ctx a).1 = [])
    ∧ (ascope ∈ ctx.claims →
        (dispatchAction ctx a).1 = [TransportCall.dispatch a] ∧
        (dispatchAction ctx a).2 = Outcome.resolved a)
    ∧ ((selectDevice ctx).2 =
          Outcome.rejected (NotionError.scope ⟨"read:devices-info"⟩) ↔
        "read:devices-info" ∉ ctx.claims)
    ∧ ("read:devices-info" ∉ ctx.claims →
        (selectDevice ctx).1 = []) := by
  have hbw : requiredScopeForFunction "brainwaves" = some "read:brainwaves" := by decide
  have hsd : requiredScopeForFunction "selectDevice" = some "read:devices-info" := by decide
  refine ⟨?_, ?_, ?_, ?_, ?_, ?_, ?_, ?_⟩
  · by_cases hc : "read:brainwaves" ∈ ctx.claims <;>
      simp [brainwaves, validateOAuthScopeForFunctionName, hbw, hc]
  · intro hc
    simp [brainwaves, validateOAuthScopeForFunctionName, hbw, hc]
  · intro hc
    simp [brainwaves, validateOAuthScopeForFunctionName, hbw, hc]
  · by_cases hc : ascope ∈ ctx.claims <;>
      simp [dispatchAction, hds, validateOAuthScopeForAction, ha, hc]
  · intro hc
    simp [dispatchAction, hds, validateOAuthScopeForAction, ha, hc]
  · intro hc
    simp [dispatchAction, hds, validateOAuthScopeForAction, ha, hc]
  · by_cases hc : "read:devices-info" ∈ ctx.claims <;>
      simp [selectDevice, validateOAuthScopeForFunctionName, hsd, hc]
  · intro hc
    simp [selectDevice, validateOAuthScopeForFunctionName, hsd, hc]

theorem guard_denies_iff_scope_absent_witness :
    (brainwaves ⟨["read:brainwaves"], true, defaultOptions, 0, 0⟩ "raw" []).2
      = Outcome.resolved () :=
  ((guard_denies_iff_scope_absent ⟨["read:brainwaves"], true, defaultOptions, 0, 0⟩
      "raw" [] ⟨"marker", "add", none, none, none⟩ "write:markers" rfl
      (by decide)).2.2.1 (by decide)).1

/-- C4: when the device advertised no socket URL, enableLocalMode(true)
rejects with the StateError and mutates nothing: the local-mode flag and
the emission history are left unchanged. -/
theorem enable_local_mode_without_socket_fails (st : NotionState)
    (url : Option String) (h : isFalsySocketUrl url = true) :
    enableLocalMode st true url =
      (st, Outcome.rejected (NotionError.stateError localModeUnsupportedMsg))
    ∧ (enableLocalMode st true url).1.localMode = st.localMode
    ∧ (enableLocalMode st true url).1.localModeEmissions = st.localModeEmissions := by
  unfold enableLocalMode
  simp [h]

theorem enable_local_mode_without_socket_fails_witness :
    enableLocalMode (Notion.construct defaultOptions) true none =
      (Notion.construct defaultOptions,
       Outcome.rejected (NotionError.stateError localModeUnsupportedMsg)) :=
  (enable_local_mode_without_socket_fails (Notion.construct defaultOptions) none rfl).1

/-- C5: with clock synchronization disabled, the timestamp used for
outgoing writes is the unsynchronized local clock, and getTimesyncOffset
warns (exactly in that case) and returns the degraded value 0. -/
theorem timesync_disabled_degrades (options : NotionOptions)
    (tsv localNow apiOffset : Int) (h : options.timesync = false) :
    ApiClient.timestamp options tsv localNow = localNow
    ∧ getTimesyncOffset options apiOffset = ([timesyncOffsetWarning], 0)
    ∧ (∀ ctx : ApiContext, ctx.options.timesync = false → ctx.timestamp = ctx.localNow)
    ∧ (∀ (o : NotionOptions) (off : Int),
         (getTimesyncOffset o off).1 ≠ [] ↔ o.timesync = false) := by
  refine ⟨?_, ?_, ?_, ?_⟩
  · simp [ApiClient.timestamp, h]
  · simp [getTimesyncOffset, h]
  · intro ctx hc
    simp [ApiContext.timestamp, ApiClient.timestamp, hc]
  · intro o off
    cases ho : o.timesync <;> simp [getTimesyncOffset, ho]

theorem timesync_disabled_degrades_witness :
    ApiClient.timestamp defaultOptions 111 222 = 222 :=
  (timesync_disabled_degrades defaultOptions 111 222 7 rfl).1

/-- C6: the kept clock-sync sample is the one with smallest round-trip
latency in the window, its offset estimate is
deviceTime - (sendTime + receiveTime) / 2, and on the single sample
(send=0, recv=100, device=60) the computed offset is 10, so now() after
enabling returns localTime + 10. -/
theorem clock_offset_estimation (w : List TimesyncSample) (s : TimesyncSample)
    (h : bestSample w = some s) :
    s ∈ w
    ∧ (∀ t ∈ w, sampleLatency s ≤ sampleLatency t)
    ∧ windowOffset w = s.deviceTime - (s.sendTime + s.receiveTime) / 2
    ∧ windowOffset [⟨0, 100, 60⟩] = 10
    ∧ (∀ localTime : Int, timesyncNow localTime [⟨0, 100, 60⟩] = localTime + 10) := by
  obtain ⟨hmem, hmin⟩ := bestSample_mem_min w s h
  have hconc : windowOffset [(⟨0, 100, 60⟩ : TimesyncSample)] = 10 := by decide
  refine ⟨hmem, hmin, ?_, hconc, ?_⟩
  · unfold windowOffset
    rw [h]
    rfl
  · intro localTime
    unfold timesyncNow
    rw [hconc]

theorem clock_offset_estimation_witness :
    timesyncNow 1000 [⟨0, 100, 60⟩] = 1010 :=
  (clock_offset_estimation [⟨0, 100, 60⟩] ⟨0, 100, 60⟩ (by decide)).2.2.2.2 1000

theorem dispatchAction_never_throws (ctx : ApiContext) (a : Action)
    (e : NotionError) : (dispatchAction ctx a).2 ≠ Outcome.thrown e := by
  unfold dispatchAction
  by_cases hd : ctx.deviceSelected = false
  · simp [hd]
  · simp only [hd, if_false]
    cases hv : validateOAuthScopeForAction ctx.claims a <;> simp [hv]

/-- C7 counterexample: addMarker, training.record, training.stop and
training.stopAll with no device selected, and addMarker with an empty
label, all finish by a synchronous throw escaping the call, not by a
rejected value. -/
theorem addMarker_trainingRecord_throw_synchronously :
    addMarker ⟨[], false, defaultOptions, 0, 0⟩ "eyes-open" =
      ([], Outcome.thrown NotionError.deviceSelection)
    ∧ trainingRecord ⟨[], false, defaultOptions, 0, 0⟩ "kinesis" "push" =
      ([], Outcome.thrown NotionError.deviceSelection)
    ∧ trainingStop ⟨[], false, defaultOptions, 0, 0⟩ "kinesis" "push" =
      ([], Outcome.thrown NotionError.deviceSelection)
    ∧ trainingStopAll ⟨[], false, defaultOptions, 0, 0⟩ =
      ([], Outcome.thrown NotionError.deviceSelection)
    ∧ addMarker ⟨["write:markers"], true, defaultOptions, 0, 0⟩ "" =
      ([], Outcome.thrown NotionError.labelRequired) := by
  refine ⟨rfl, rfl, rfl, rfl, rfl⟩

/-- C7 (amended): public operations surface failures as rejected values
or errored streams carrying a machine-checkable error kind — except that
addMarker, training.record, training.stop and training.stopAll with no
device selected, and addMarker with an empty label, throw synchronously
instead of failing by value. -/
theorem errors_by_value_except_marker_and_training (ctx : ApiContext)
    (a : Action) (label metric lbl : String) (otherLabels : List String) :
    (∀ e, (dispatchAction ctx a).2 ≠ Outcome.thrown e)
    ∧ (∀ e, (brainwaves ctx lbl otherLabels).2 ≠ Outcome.thrown e)
    ∧ (∀ e, (selectDevice ctx).2 ≠ Outcome.thrown e)
    ∧ (∀ (st : NotionState) (b : Bool) (url : Option String) (e : NotionError),
         (enableLocalMode st b url).2 ≠ Outcome.thrown e)
    ∧ (ctx.deviceSelected = false →
         addMarker ctx label = ([], Outcome.thrown NotionError.deviceSelection)
         ∧ trainingRecord ctx metric label =
             ([], Outcome.thrown NotionError.deviceSelection)
         ∧ trainingStop ctx metric label =
             ([], Outcome.thrown NotionError.deviceSelection)
         ∧ trainingStopAll ctx =
             ([], Outcome.thrown NotionError.deviceSelection))
    ∧ (ctx.deviceSelected = true → label.isEmpty = true →
         addMarker ctx label = ([], Outcome.thrown NotionError.labelRequired))
    ∧ (ctx.deviceSelected = true → label.isEmpty = false →
         ∀ e, (addMarker ctx label).2 ≠ Outcome.thrown e)
    ∧ (ctx.deviceSelected = true →
         (∀ e, (trainingRecord ctx metric label).2 ≠ Outcome.thrown e)
         ∧ (∀ e, (trainingStop ctx metric label).2 ≠ Outcome.thrown e)
         ∧ (∀ e, (trainingStopAll ctx).2 ≠ Outcome.thrown e)) := by
  refine ⟨fun e => dispatchAction_never_throws ctx a e, ?_, ?_, ?_, ?_, ?_, ?_, ?_⟩
  · intro e
    unfold brainwaves
    cases hv : validateOAuthScopeForFunctionName ctx.claims "brainwaves" <;> simp [hv]
  · intro e
    unfold selectDevice
    cases hv : validateOAuthScopeForFunctionName ctx.claims "selectDevice" <;> simp [hv]
  · intro st b url e
    unfold enableLocalMode
    split_ifs <;> simp
  · intro hd
    refine ⟨?_, ?_, ?_, ?_⟩
    · unfold addMarker
      simp [hd]
    · unfold trainingRecord
      simp [hd]
    · unfold trainingStop
      simp [hd]
    · unfold trainingStopAll
      simp [hd]
  · intro hd hl
    unfold addMarker
    simp [hd, hl]
  · intro hd hl e
    unfold addMarker
    simp only [hd, Bool.true_eq_false, if_false, hl]
    exact dispatchAction_never_throws ctx _ e
  · intro hd
    refine ⟨?_, ?_, ?_⟩ <;> intro e
    · unfold trainingRecord
      simp [hd]
    · unfold trainingStop
      simp [hd]
    · unfold trainingStopAll
      simp [hd]

/-- C8: with a device selected, enableLocalMode(false) always succeeds
regardless of the socket URL: it resolves with false, emits false, and
sets the local-mode flag to false. -/
theorem disable_local_mode_always_succeeds (st : NotionState) (d : String)
    (url : Option String) (_h : st.selectedDevice = some d) :
    enableLocalMode st false url =
      ({ st with localMode := false,
                 localModeEmissions := st.localModeEmissions ++ [false] },
       Outcome.resolved false)
    ∧ (enableLocalMode st false url).2 = Outcome.resolved false
    ∧ (enableLocalMode st false url).1.localMode = false := by
  unfold enableLocalMode
  simp

theorem disable_local_mode_always_succeeds_witness :
    (enableLocalMode
        { Notion.construct defaultOptions with selectedDevice := some "deviceA" }
        false none).2 = Outcome.resolved false :=
  (disable_local_mode_always_succeeds
      { Notion.construct defaultOptions with selectedDevice := some "deviceA" }
      "deviceA" none rfl).2.1

/-- C9: calm() and focus() are label-narrowed aliases of the single
metric "awareness": calm subscribes to metric "awareness" with labels
["calm"] and atomic=false, focus to metric "awareness" with labels
["focus"] and atomic=false. -/
theorem calm_focus_are_awareness_aliases (ctx : ApiContext)
    (hc : "read:calm" ∈ ctx.claims) (hf : "read:focus" ∈ ctx.claims) :
    calm ctx =
      ([TransportCall.subscribeMetric ⟨"awareness", ["calm"], false⟩],
       Outcome.resolved ())
    ∧ focus ctx =
      ([TransportCall.subscribeMetric ⟨"awareness", ["focus"], false⟩],
       Outcome.resolved ()) := by
  have h1 : requiredScopeForFunction "calm" = some "read:calm" := by decide
  have h2 : requiredScopeForFunction "focus" = some "read:focus" := by decide
  constructor
  · simp [calm, validateOAuthScopeForFunctionName, h1, hc]
  · simp [focus, validateOAuthScopeForFunctionName, h2, hf]

theorem calm_focus_are_awareness_aliases_witness :
    calm ⟨["read:calm", "read:focus"], true, defaultOptions, 0, 0⟩ =
      ([TransportCall.subscribeMetric ⟨"awareness", ["calm"], false⟩],
       Outcome.resolved ()) :=
  (calm_focus_are_awareness_aliases
      ⟨["read:calm", "read:focus"], true, defaultOptions, 0, 0⟩
      (by decide) (by decide)).1

/-- C10 counterexample: at onDeviceSocketUrl = some "" the option is set
(isSome) but the constructor's JS-truthy check `if
(options.onDeviceSocketUrl)` fails on the empty string, so no on-device
socket transport is created: creation is not equivalent to the option
being set. -/
theorem socket_creation_is_truthiness_not_isSome :
    (some "" : Option String).isSome = true
    ∧ (Notion.construct ⟨false, true, some "", none⟩).hasOnDeviceSocket = false := by
  refine ⟨rfl, rfl⟩

/-- C10 (amended): the options are stored frozen at construction, and the
on-device socket transport is created then, exactly when
options.onDeviceSocketUrl is set to a non-empty (JS-truthy) string; no
subsequent operation reassigns either, so whether a local-socket
transport exists is an invariant of the instance. -/
theorem options_and_socket_are_construction_invariants
    (options : NotionOptions) (st : NotionState) (op : NotionOp) :
    (Notion.construct options).options = options
    ∧ ((Notion.construct options).hasOnDeviceSocket = true ↔
        ∃ s, options.onDeviceSocketUrl = some s ∧ s.isEmpty = false)
    ∧ (notionStep st op).options = st.options
    ∧ (notionStep st op).hasOnDeviceSocket = st.hasOnDeviceSocket := by
  refine ⟨rfl, ?_, ?_, ?_⟩
  · cases h : options.onDeviceSocketUrl with
    | none => simp [Notion.construct, isFalsySocketUrl, h]
    | some s => simp [Notion.construct, isFalsySocketUrl, h]
  all_goals cases op
  all_goals simp only [notionStep]
  all_goals
    first
    | rfl
    | (unfold enableLocalMode; split_ifs <;> rfl)

end NotionSDK
